import Mathlib

/-!
Verification of the parallel-analyzer-service backend analyzers
(`confidence_analyzer.py`, `openmp_validator.py`, `hotspot_analyzer.py`,
`code_block_analyzer.py`, `hybrid_analyzer.py`, `pattern_cache.py`).

Modelling conventions, used throughout:

* Python floats are modelled as rationals (`ℚ`).  Every constant in the code
  (0.95, 0.85, 0.15, ...) is exactly representable, and every property proved
  here depends only on comparisons and clamps that agree between binary
  floating point and exact rational arithmetic.
* Python dictionaries with a fixed key vocabulary are modelled as structures;
  a key that may be absent is modelled with `Option` and the corresponding
  `dict.get` default is applied by an accessor.
* The leaf regular-expression tests (`re.search`, `re.findall` counts) that
  the analyzers apply to raw source text are modelled as boolean- or
  count-valued detector functions supplied as explicit parameters (the
  `CtxDetect`, `Detectors` structures below).  All arithmetic, ordering,
  clamping and branching logic computed FROM those detections is translated
  directly from the source.  Plain substring tests (Python `in`) and string
  manipulation (`strip`, `lower`, `split`) are implemented concretely.
-/

/- The Batteries rational operations are marked irreducible for elaboration
performance; re-enable unfolding so that concrete witness computations can be
checked by kernel reduction. -/
attribute [local semireducible] Rat.ofScientific Rat.add Rat.sub Rat.mul Rat.inv

/-- Boolean list-prefix test on characters (Python substring machinery). -/
def isPrefixB : List Char → List Char → Bool
  | [], _ => true
  | _ :: _, [] => false
  | a :: as, b :: bs => a == b && isPrefixB as bs

/-- Boolean infix test: does `needle` occur inside the second list. -/
def isInfixB (needle : List Char) : List Char → Bool
  | [] => isPrefixB needle []
  | c :: t => isPrefixB needle (c :: t) || isInfixB needle t

/-- Python `needle in hay` on strings (substring containment). -/
def containsSub (hay needle : String) : Bool :=
  isInfixB needle.data hay.data

/-- Python `str.split()` with no argument: split on whitespace runs,
dropping empty pieces. -/
def wsTokens (s : String) : List String :=
  (s.split (fun c => c.isWhitespace)).filter (fun t => t ≠ "")

/-- Join tokens with single spaces (whitespace collapsing). -/
def joinSp (ts : List String) : String :=
  String.intercalate " " ts

/-- Python `str.lower()` (ASCII, which is all the analyzed text uses),
implemented by structural recursion so that concrete witnesses evaluate in
the kernel. -/
def String.pyLower (s : String) : String :=
  ⟨s.data.map Char.toLower⟩

/-- Python `str.strip()`: drop leading and trailing whitespace. -/
def pyStrip (s : String) : String :=
  ⟨((s.data.dropWhile Char.isWhitespace).reverse.dropWhile Char.isWhitespace).reverse⟩

/-- Does the string end in a whitespace character. -/
def endsWithWS (s : String) : Bool :=
  match s.data.getLast? with
  | some c => c.isWhitespace
  | none => false

/-! ## openmp_validator.py -/

/-- `ValidationStatus` enum of `openmp_validator.py`. -/
inductive ValidationStatus where
  | verified
  | compliant
  | similar
  | unknownStatus
  | nonCompliant
deriving DecidableEq

/-- The `.value` string of each `ValidationStatus` member. -/
def status_value : ValidationStatus → String
  | .verified => "verified"
  | .compliant => "compliant"
  | .similar => "similar"
  | .unknownStatus => "unknown"
  | .nonCompliant => "non_compliant"

/-- `OpenMPPattern` dataclass (fields used by validation). -/
structure OpenMPPattern where
  pragma : String
  context : String
  sourceFile : String
  patternType : String
  description : String
deriving DecidableEq

/-- `ValidationResult` dataclass. -/
structure ValidationResult where
  status : ValidationStatus
  confidenceBoost : ℚ
  referenceSource : Option String
  similarityScore : ℚ
  complianceNotes : List String
deriving DecidableEq

/-- Validator state: the verified patterns loaded from the reference corpus
(`self.verified_patterns`). -/
structure ValidatorState where
  verifiedPatterns : List OpenMPPattern
deriving DecidableEq

/-- `_load_pragma_syntax_rules`: directive name to legal clause list
(the `clauses` entry of each rule; the other entries are not read by
validation). -/
def pragma_syntax_rules : List (String × List String) :=
  [ ("parallel", ["num_threads", "if", "default", "private", "firstprivate",
      "shared", "copyin", "reduction", "proc_bind"]),
    ("parallel for", ["private", "firstprivate", "lastprivate", "reduction",
      "schedule", "collapse", "ordered", "nowait"]),
    ("simd", ["private", "lastprivate", "reduction", "collapse",
      "safelen", "simdlen", "linear", "aligned", "if"]),
    ("parallel for simd", ["private", "firstprivate", "lastprivate", "reduction",
      "schedule", "collapse", "safelen", "simdlen", "linear", "aligned"]),
    ("task", ["if", "untied", "default", "private", "firstprivate",
      "shared", "depend", "priority"]),
    ("taskloop", ["shared", "private", "firstprivate", "lastprivate",
      "reduction", "if", "untied", "collapse", "grainsize", "num_tasks"]) ]

/-- `_normalize_pragma`: strip a leading `#pragma omp` (match of
`^\s*#pragma\s+omp\s+`, case-insensitive), collapse whitespace, lower-case.
Modelled on the whitespace token list of the lower-cased input: the regex
matches exactly when the first two tokens are `#pragma` and `omp` and they
are followed by further whitespace (either a third token or trailing
whitespace). -/
def normalize_pragma (p : String) : String :=
  let toks := wsTokens p.pyLower
  match toks with
  | "#pragma" :: "omp" :: rest =>
      if rest.isEmpty && !(endsWithWS p) then joinSp toks else joinSp rest
  | _ => joinSp toks

/-- `_find_exact_match`: first verified pattern whose normalized pragma equals
the query and whose pattern type matches the hint (an empty hint matches
everything, Python `not pattern_type`). -/
def find_exact_match (v : ValidatorState) (normalizedPragma : String)
    (patternType : String) : Option OpenMPPattern :=
  v.verifiedPatterns.find? (fun pat =>
    normalize_pragma pat.pragma == normalizedPragma &&
      (patternType == "" || pat.patternType == patternType))

/-- `_normalize_pattern_type`. -/
def normalize_pattern_type (patternType : String) : String :=
  if patternType = "" then ""
  else
    let pl := patternType.pyLower
    if containsSub pl "vector" || containsSub pl "simd" then "loop_vectorizable"
    else if containsSub pl "loop" || containsSub pl "parallel" ||
        containsSub pl "embarrassing" then "loop_parallel"
    else if containsSub pl "reduction" then "reduction"
    else if containsSub pl "task" then "task_parallel"
    else pl

/-- `_are_compatible_loop_types`. -/
def are_compatible_loop_types (t1 t2 : String) : Bool :=
  let fam := ["loop_vectorizable", "loop_parallel"]
  fam.contains t1 && fam.contains t2

/-- `_is_nested_loop_pattern`. -/
def is_nested_loop_pattern (p1 p2 : String) : Bool :=
  let kws := ["parallel for", "simd", "parallel", "for"]
  kws.any (fun k => containsSub p1 k) && kws.any (fun k => containsSub p2 k)

/-- The three `loop_equivalents` token-pattern pairs of
`_calculate_pragma_similarity`. -/
def loop_equivalents : List (List String × List String) :=
  [ (["parallel", "for"], ["parallel", "for"]),
    (["simd"], ["parallel", "for", "simd"]),
    (["for"], ["parallel", "for"]) ]

/-- `_calculate_pragma_similarity`: Jaccard similarity of the whitespace token
sets plus a one-shot 0.2 loop-equivalence boost and 0.05 per shared common
clause, capped at 1.0. -/
def calculate_pragma_similarity (p1 p2 : String) : ℚ :=
  let t1 := (wsTokens p1).eraseDups
  let t2 := (wsTokens p2).eraseDups
  let inter := (t1.filter (fun x => t2.contains x)).length
  let union := t1.length + (t2.filter (fun x => !t1.contains x)).length
  let base : ℚ := if union = 0 then 0 else (inter : ℚ) / (union : ℚ)
  let equivBoost : ℚ :=
    if loop_equivalents.any (fun pr =>
        ((pr.1.all (fun tok => t1.contains tok) && pr.2.all (fun tok => t2.contains tok)) ||
         (pr.1.all (fun tok => t2.contains tok) && pr.2.all (fun tok => t1.contains tok))))
    then 0.2 else 0
  let commonClauses := ["private", "reduction", "schedule", "collapse"]
  let clauseBoost : ℚ := commonClauses.foldl
    (fun acc clause =>
      if t1.contains clause && t2.contains clause then acc + 0.05 else acc) 0
  min 1 (base + equivBoost + clauseBoost)

/-- `_find_similar_pattern` of the validator: best pattern by boosted
similarity, threshold 0.6, strict improvement over the running best. -/
def validator_find_similar (v : ValidatorState) (normalizedPragma : String)
    (patternType : String) : Option (OpenMPPattern × ℚ) :=
  let nt := normalize_pattern_type patternType
  v.verifiedPatterns.foldl
    (fun best pat =>
      let pp := normalize_pragma pat.pragma
      let sim0 := calculate_pragma_similarity normalizedPragma pp
      let pnt := normalize_pattern_type pat.patternType
      let sim1 :=
        if pnt ≠ "" ∧ nt ≠ "" then
          if pnt = nt then sim0 + 0.15
          else if are_compatible_loop_types nt pnt then sim0 + 0.10
          else sim0
        else sim0
      let sim :=
        if is_nested_loop_pattern normalizedPragma pp then sim1 + 0.05 else sim1
      let bestScore : ℚ := match best with | none => 0 | some pr => pr.2
      if sim > bestScore ∧ sim ≥ 0.6 then some (pat, sim) else best)
    none

/-- `_check_syntax_compliance`: split tokens into directive words and clause
words (a token starting a clause contains an opening parenthesis; the clause
continues until a token containing the closing one), then check the directive
against the syntax-rule table. -/
def check_syntax_compliance (normalizedPragma : String) : Bool × List String :=
  let parts := wsTokens normalizedPragma
  if parts.isEmpty then (false, ["Empty pragma"])
  else
    let step := parts.foldl
      (fun (acc : List String × List String × Bool) part =>
        let dp := acc.1
        let cl := acc.2.1
        let inClause := acc.2.2
        if containsSub part "(" || inClause then
          (dp, cl ++ [part], !(containsSub part ")"))
        else (dp ++ [part], cl, inClause))
      ([], [], false)
    let directive := joinSp step.1
    let clauses := step.2.1
    match pragma_syntax_rules.lookup directive with
    | none =>
        match pragma_syntax_rules.find?
            (fun kr => containsSub directive kr.1 || containsSub kr.1 directive) with
        | some kr => (true, ["Directive similar to known pattern: " ++ kr.1])
        | none => (false, ["Unknown directive: " ++ directive])
    | some clauseRule =>
        let notes := clauses.foldl
          (fun ns clause =>
            let clauseName := (clause.splitOn "(").headD ""
            if clauseRule.contains clauseName then ns
            else ns ++ ["Warning: Clause " ++ clauseName ++ " not standard for " ++ directive])
          ["Valid OpenMP 5.2 directive"]
        (true, notes)

/-- `OpenMPSpecValidator.validate_pragma_suggestion`: empty input short-circuit,
then exact match, then similarity match, then syntax compliance.  The note
with the similarity score formatted to two decimals is modelled with the
rational printed verbatim (the note text is never branched on). -/
def validate_pragma_suggestion (v : ValidatorState) (pragma : String)
    (patternType : String) : ValidationResult :=
  if pyStrip pragma = "" then
    { status := .nonCompliant, confidenceBoost := -0.2, referenceSource := none,
      similarityScore := 0, complianceNotes := ["Empty pragma provided"] }
  else
    let normalized := normalize_pragma pragma
    match find_exact_match v normalized patternType with
    | some pat =>
        { status := .verified, confidenceBoost := 0.3,
          referenceSource := some pat.sourceFile, similarityScore := 1,
          complianceNotes := ["Exact match found in " ++ pat.sourceFile] }
    | none =>
        match validator_find_similar v normalized patternType with
        | some pr =>
            { status := .similar, confidenceBoost := 0.15,
              referenceSource := some pr.1.sourceFile, similarityScore := pr.2,
              complianceNotes := ["Similar pattern found (similarity: " ++ toString pr.2 ++ ")"] }
        | none =>
            let sc := check_syntax_compliance normalized
            if sc.1 then
              { status := .compliant, confidenceBoost := 0.1, referenceSource := none,
                similarityScore := 0, complianceNotes := sc.2 }
            else
              { status := .nonCompliant, confidenceBoost := -0.15, referenceSource := none,
                similarityScore := 0, complianceNotes := sc.2 }

/-! ## Shared candidate / analysis data model -/

/-- An AI analysis payload (the structured dict the classifier returns and the
cache stores): `classification`, `confidence`, `reasoning`, suggested
`transformations`, `tests_recommended` and the `block_unified` flag added by
unification. -/
structure AiAnalysis where
  classification : String
  confidence : ℚ
  reasoning : String
  transformations : List String
  testsRecommended : List String
  blockUnified : Bool
deriving DecidableEq

/-- The `code_block` info dict attached to a result by `_unify_block_analysis`. -/
structure BlockInfo where
  btype : String
  startLine : Int
  endLine : Int
  nestingLevel : Nat
  parallelizationPotential : String
  analysisNotes : List String
  blockAnalysis : String
deriving DecidableEq

/-- A candidate / analysis-result dict.  The same Python dict flows through all
pipeline phases; keys that a phase may not have written yet are `Option`.
`hotspotPriority` models `candidate.get("hotspot_priority", False)`. -/
structure Cand where
  file : String
  line : Int
  funcName : String
  candidateType : String
  reason : String
  suggestedPatch : String
  hotspotPriority : Bool
  hotspotScore : Option Int
  aiAnalysis : Option AiAnalysis
  codeBlock : Option BlockInfo
deriving DecidableEq

/-- Python `result.get("ai_analysis", {}).get("classification", dflt)`. -/
def ai_classification_d (r : Cand) (dflt : String) : String :=
  match r.aiAnalysis with
  | some a => a.classification
  | none => dflt

/-- Python `result.get("ai_analysis", {}).get("confidence", dflt)`. -/
def ai_confidence_d (r : Cand) (dflt : ℚ) : ℚ :=
  match r.aiAnalysis with
  | some a => a.confidence
  | none => dflt

/-! ## confidence_analyzer.py -/

/-- `self.pattern_confidence`: base prior per candidate type. -/
def pattern_confidence : List (String × ℚ) :=
  [ ("embarrassingly_parallel", 0.95),
    ("vectorizable", 0.85),
    ("advanced_reduction", 0.90),
    ("parallel_loop", 0.70),
    ("simple_parallel", 0.65),
    ("reduction", 0.80),
    ("stencil", 0.75),
    ("map_reduce", 0.85) ]

/-- `_get_base_pattern_confidence`: table lookup with default 0.5 (an absent
`candidate_type` key reads as `"unknown"`, which is not in the table). -/
def get_base_pattern_confidence (c : Cand) : ℚ :=
  (pattern_confidence.lookup c.candidateType).getD 0.5

/-- Outcomes of the regex probes of `_analyze_code_context` over the candidate
code context: one boolean per risk factor and per boost factor.  The regex
engine itself is the modelling boundary; the weights and clamping below are
from the source. -/
structure CtxDetect where
  functionCalls : Bool
  pointerArithmetic : Bool
  complexControlFlow : Bool
  globalVariables : Bool
  dynamicMemory : Bool
  recursiveCalls : Bool
  volatileVariables : Bool
  inlineAssembly : Bool
  simpleArrayAccess : Bool
  knownLoopBounds : Bool
  localVariablesOnly : Bool
  arithmeticHeavy : Bool
  readOnlyData : Bool
  regularMemoryPattern : Bool
  smallLoopBody : Bool
deriving DecidableEq

/-- `_analyze_code_context`: accumulate the risk penalties and boost values of
the detected factors and clamp the modifier to `[-0.5, 0.3]`. -/
def analyze_code_context (d : CtxDetect) : ℚ :=
  let m : ℚ := 0
  let m := m + (if d.functionCalls then -0.15 else 0)
  let m := m + (if d.pointerArithmetic then -0.10 else 0)
  let m := m + (if d.complexControlFlow then -0.20 else 0)
  let m := m + (if d.globalVariables then -0.10 else 0)
  let m := m + (if d.dynamicMemory then -0.15 else 0)
  let m := m + (if d.recursiveCalls then -0.30 else 0)
  let m := m + (if d.volatileVariables then -0.25 else 0)
  let m := m + (if d.inlineAssembly then -0.50 else 0)
  let m := m + (if d.simpleArrayAccess then 0.10 else 0)
  let m := m + (if d.knownLoopBounds then 0.10 else 0)
  let m := m + (if d.localVariablesOnly then 0.05 else 0)
  let m := m + (if d.arithmeticHeavy then 0.08 else 0)
  let m := m + (if d.readOnlyData then 0.12 else 0)
  let m := m + (if d.regularMemoryPattern then 0.15 else 0)
  let m := m + (if d.smallLoopBody then 0.05 else 0)
  max (-0.5) (min 0.3 m)

/-- Positive keywords of `_analyze_candidate_metadata`. -/
def positive_keywords : List String :=
  ["no dependencies", "simple", "independent", "embarrassing",
   "vectorizable", "reduction", "parallel"]

/-- Negative keywords of `_analyze_candidate_metadata`. -/
def negative_keywords : List String :=
  ["complex", "dependencies", "side effects", "unclear",
   "potential", "risky", "needs verification"]

/-- `_analyze_candidate_metadata`: hotspot bonus, one-shot positive / negative
keyword scan of the reason text, and the function-name heuristic. -/
def analyze_candidate_metadata (c : Cand) : ℚ :=
  let m : ℚ := if c.hotspotPriority then 0.1 else 0
  let reason := c.reason.pyLower
  let m := if positive_keywords.any (fun k => containsSub reason k) then m + 0.05 else m
  let m := if negative_keywords.any (fun k => containsSub reason k) then m - 0.08 else m
  let fn := c.funcName.pyLower
  if fn = "main" ∨ fn = "unknown" ∨ fn = "" then m - 0.05
  else if ["compute", "process", "calculate", "transform"].any
      (fun h => containsSub fn h) then m + 0.05
  else m

/-- The validation dict `_validate_openmp_compliance` folds into the
confidence result: status string and confidence boost (the fields the scorer
reads). -/
structure ComplianceOutcome where
  status : String
  confidenceBoost : ℚ
deriving DecidableEq

/-- `_validate_openmp_compliance`: extract the first `#pragma omp` line of the
suggested patch and validate it; no pragma gives a zero boost.  The validator
is modelled as available (the unavailable- and exception-paths also return a
zero boost). -/
def validate_openmp_compliance (v : ValidatorState) (c : Cand) : ComplianceOutcome :=
  if c.suggestedPatch = "" ∨ ¬ containsSub c.suggestedPatch "#pragma omp" then
    { status := "no_pragma", confidenceBoost := 0 }
  else
    let pragmaLines := ((c.suggestedPatch.splitOn "\n").map pyStrip).filter
      (fun l => l.startsWith "#pragma omp")
    match pragmaLines with
    | [] => { status := "no_pragma", confidenceBoost := 0 }
    | pragma :: _ =>
        let r := validate_pragma_suggestion v pragma c.candidateType
        { status := status_value r.status, confidenceBoost := r.confidenceBoost }

/-- The dict returned by `analyze_confidence_with_validation`: final confidence
plus the additive breakdown. -/
structure ConfidenceResult where
  confidence : ℚ
  basePattern : ℚ
  codeContext : ℚ
  metadata : ℚ
  openmpBoost : ℚ
  validation : ComplianceOutcome
deriving DecidableEq

/-- `ConfidenceAnalyzer.analyze_confidence_with_validation`: base prior, plus
context modifier (only when a context string is present), plus metadata
modifier, plus the OpenMP validation boost, clamped to `[0, 1]`. -/
def analyze_confidence_with_validation (v : ValidatorState) (c : Cand)
    (codeContext : String) (d : CtxDetect) : ConfidenceResult :=
  let base := get_base_pattern_confidence c
  let ctxMod : ℚ := if codeContext ≠ "" then analyze_code_context d else 0
  let b1 := base + ctxMod
  let metaMod := analyze_candidate_metadata c
  let b2 := b1 + metaMod
  let vr := validate_openmp_compliance v c
  let b3 := b2 + vr.confidenceBoost
  { confidence := max 0 (min 1 b3),
    basePattern := get_base_pattern_confidence c,
    codeContext := ctxMod,
    metadata := metaMod,
    openmpBoost := vr.confidenceBoost,
    validation := vr }

/-- `ConfidenceAnalyzer.analyze_confidence`: the `confidence` entry of the
validated analysis. -/
def analyze_confidence (v : ValidatorState) (c : Cand) (codeContext : String)
    (d : CtxDetect) : ℚ :=
  (analyze_confidence_with_validation v c codeContext d).confidence

/-! ## Theorems for C1 -/

/-- C1: for every candidate, every code context and every outcome of the
context regex probes, the confidence produced by
`analyze_confidence_with_validation` (and hence by `analyze_confidence`,
which returns its `confidence` entry) lies in the closed interval [0, 1],
however the base prior, context modifier, metadata modifier and validation
delta combine. -/
theorem confidence_clamped_to_unit_interval (v : ValidatorState) (c : Cand)
    (codeContext : String) (d : CtxDetect) :
    0 ≤ (analyze_confidence_with_validation v c codeContext d).confidence ∧
    (analyze_confidence_with_validation v c codeContext d).confidence ≤ 1 ∧
    analyze_confidence v c codeContext d =
      (analyze_confidence_with_validation v c codeContext d).confidence := by
  refine ⟨le_max_left _ _, ?_, rfl⟩
  exact max_le (by norm_num) (min_le_left _ _)

/-! ## Theorems for C9 -/

/-- C9: for every validator state and every pattern-type hint, validating a
directive string whose strip() is empty returns status non-compliant
with confidence delta -0.20 and the empty-pragma note (and, being a total
function, raises no exception). -/
theorem empty_pragma_non_compliant (v : ValidatorState) (pragma : String)
    (patternType : String) (h : pyStrip pragma = "") :
    validate_pragma_suggestion v pragma patternType =
      { status := .nonCompliant, confidenceBoost := -0.2, referenceSource := none,
        similarityScore := 0, complianceNotes := ["Empty pragma provided"] } := by
  unfold validate_pragma_suggestion
  rw [if_pos h]

/-- C9 witness: the empty directive with hint `vectorizable` on an empty
corpus is judged non-compliant with delta -0.20. -/
theorem empty_pragma_non_compliant_witness :
    validate_pragma_suggestion ⟨[]⟩ "" "vectorizable" =
      { status := .nonCompliant, confidenceBoost := -0.2, referenceSource := none,
        similarityScore := 0, complianceNotes := ["Empty pragma provided"] } :=
  empty_pragma_non_compliant ⟨[]⟩ "" "vectorizable" (by decide)

/-! ## hotspot_analyzer.py -/

/-- `LoopHotspot`: a detected loop region with the characteristic tallies
that `_analyze_loop_characteristics` counts in it (the tallies are results of
regex counting over the region text; they are carried as fields here).
`loop_size` is `end_line - start_line` as set by the constructor. -/
structure LoopRegion where
  startLine : Int
  endLine : Int
  functionName : String
  nestingDepth : Int
  arrayOperations : Int
  arithmeticOperations : Int
  functionCalls : Int
  memoryAccessComplexity : Int
deriving DecidableEq

/-- `self.loop_size = end_line - start_line`. -/
def loop_size (h : LoopRegion) : Int :=
  h.endLine - h.startLine

/-- `LoopHotspot.calculate_impact_score`, translated term by term. -/
def calculate_impact_score (h : LoopRegion) : Int :=
  let score : Int := 0
  let score := score + h.nestingDepth * h.nestingDepth * 25
  let score := score + h.arrayOperations * 15
  let score := score + h.arithmeticOperations * 8
  let score := score + h.memoryAccessComplexity * 12
  let score := score + loop_size h * 2
  let score := score - h.functionCalls * 10
  let score := if 0 < h.arrayOperations ∧ h.functionCalls = 0 then score + 20 else score
  max score 0

/-- Descending order on impact score (Python `sort(key=..., reverse=True)`). -/
def byImpactGe (a b : LoopRegion) : Prop :=
  calculate_impact_score b ≤ calculate_impact_score a

instance : DecidableRel byImpactGe :=
  fun _ _ => inferInstanceAs (Decidable (_ ≤ _))

instance : IsTotal LoopRegion byImpactGe :=
  ⟨fun _ _ => le_total _ _⟩

instance : IsTrans LoopRegion byImpactGe :=
  ⟨fun _ _ _ h1 h2 => le_trans h2 h1⟩

/-- `HotspotAnalyzer.analyze_hotspots` from the point where the loop regions
and their characteristic tallies are in hand: keep regions whose impact score
is at least `min_impact_threshold` (50), sort by descending impact score and
return the first `max_hotspots` (10). -/
def analyze_hotspots (regions : List LoopRegion) : List LoopRegion :=
  let hotspots := regions.filter (fun h => (50 : Int) ≤ calculate_impact_score h)
  (hotspots.insertionSort byImpactGe).take 10

/-- Ascending order on candidate line (`sorted(candidates, key=line)`). -/
def candLineLe (a b : Cand) : Prop :=
  a.line ≤ b.line

instance : DecidableRel candLineLe :=
  fun _ _ => inferInstanceAs (Decidable (_ ≤ _))

instance : IsTotal Cand candLineLe :=
  ⟨fun _ _ => le_total _ _⟩

instance : IsTrans Cand candLineLe :=
  ⟨fun _ _ _ h1 h2 => le_trans h1 h2⟩

/-- Descending order on `candidate.get("hotspot_score", 0)`. -/
def candHScoreGe (a b : Cand) : Prop :=
  b.hotspotScore.getD 0 ≤ a.hotspotScore.getD 0

instance : DecidableRel candHScoreGe :=
  fun _ _ => inferInstanceAs (Decidable (_ ≤ _))

instance : IsTotal Cand candHScoreGe :=
  ⟨fun _ _ => le_total _ _⟩

instance : IsTrans Cand candHScoreGe :=
  ⟨fun _ _ _ h1 h2 => le_trans h2 h1⟩

/-- Is the candidate line inside the hotspot span (`start <= line <= end`). -/
def in_hotspot_range (line : Int) (h : LoopRegion) : Bool :=
  decide (h.startLine ≤ line) && decide (line ≤ h.endLine)

/-- The in-place annotation `candidate["hotspot_score"] = ...;
candidate["hotspot_priority"] = True`. -/
def annotate_with_hotspot (c : Cand) (h : LoopRegion) : Cand :=
  { c with hotspotScore := some (calculate_impact_score h), hotspotPriority := true }

/-- The per-candidate step of the filtering loop: annotate the candidate with
the first hotspot whose span contains its line (Python iterates the span list
and breaks on the first container), flagging whether a match happened. -/
def hotspot_pairs (cands : List Cand) (hotspots : List LoopRegion) :
    List (Cand × Bool) :=
  cands.map (fun c =>
    match hotspots.find? (fun h => in_hotspot_range c.line h) with
    | some h => (annotate_with_hotspot c h, true)
    | none => (c, false))

/-- The contents of the `candidates` argument after the filtering loop
(matching dicts were mutated in place). -/
def hotspot_updated (cands : List Cand) (hotspots : List LoopRegion) : List Cand :=
  (hotspot_pairs cands hotspots).map Prod.fst

/-- The `filtered_candidates` list built by the loop: the annotated matches in
arrival order. -/
def hotspot_matched (cands : List Cand) (hotspots : List LoopRegion) : List Cand :=
  ((hotspot_pairs cands hotspots).filter (fun pr => pr.2)).map Prod.fst

/-- `HotspotAnalyzer.filter_candidates_by_hotspots`.  Python mutates matching
candidate dicts in place and returns a list of references into the argument
list, so the model returns a pair: the first component is the contents of the
`candidates` argument after the call (each matching candidate annotated), the
second is the returned list.  The three branches of the source: no hotspots
(return all candidates untouched); at least one candidate inside a hotspot
span (return the annotated matches sorted by descending hotspot score); no
candidate inside any span (return the first five candidates by line number,
untouched). -/
def filter_candidates_by_hotspots (cands : List Cand) (hotspots : List LoopRegion) :
    List Cand × List Cand :=
  if hotspots.isEmpty then (cands, cands)
  else if (hotspot_matched cands hotspots).isEmpty then
    (hotspot_updated cands hotspots, (cands.insertionSort candLineLe).take 5)
  else
    (hotspot_updated cands hotspots,
      (hotspot_matched cands hotspots).insertionSort candHScoreGe)

/-! ## code_block_analyzer.py -/

/-- Outcomes of the leaf regular-expression probes used by
`code_block_analyzer.py`, `hybrid_analyzer.py` and `pattern_cache.py` on raw
code text; each field stands for one `re.search` / `re.findall` with the
regex given in its comment.  All logic built from these probes is translated
from the source. -/
structure Detectors where
  /-- count of `\w+\[\s*\w+\s*[+-]\s*\d+\s*\]` matches (code_block_analyzer). -/
  offsetNumArrayCount : String → Nat
  /-- count of `\w+\s*\(.*\)` matches. -/
  callLikeCount : String → Nat
  /-- search `\w+\s*\+=`. -/
  rePlusEq : String → Bool
  /-- search `\w+\s*\*=`. -/
  reStarEq : String → Bool
  /-- search `\w+\s*=.*\+.*\w+`. -/
  reAssignPlus : String → Bool
  /-- search `\w+\[\s*\w+\s*[+-]\s*\w+\s*\]` (hybrid_analyzer block safety). -/
  offsetWordArray : String → Bool
  /-- search `\bfor\s*\(`. -/
  reForLoop : String → Bool
  /-- search `\bwhile\s*\(`. -/
  reWhileLoop : String → Bool
  /-- search `\bdo\s*{`. -/
  reDoLoop : String → Bool
  /-- search `\w+\[\s*\w+\s*\]`. -/
  reSimpleIndex : String → Bool
  /-- search `\w+\[\s*\w+\s*\]\s*\[\s*\w+\s*\]`. -/
  reMultiDim : String → Bool
  /-- search `\w+\[\s*\w+\s*[+\-*/]\s*\w*\s*\]`. -/
  reComplexIndex : String → Bool
  /-- search `[+\-]`. -/
  rePlusMinus : String → Bool
  /-- search `[*/]`. -/
  reMulDiv : String → Bool
  /-- search `[&|^~]`. -/
  reBitwise : String → Bool
  /-- search `[<>=!]`. -/
  reCompare : String → Bool
  /-- search `[=]`. -/
  reAssign : String → Bool
  /-- search `\b(sin|cos|sqrt|log|exp|pow)\b`. -/
  reMathFn : String → Bool
  /-- number of unique non-keyword identifiers (`_count_variables`). -/
  variableCount : String → Nat
  /-- search `\w+\s*\(`. -/
  reCallShape : String → Bool
  /-- search `\b(if|else|switch|case)\b`. -/
  reControlFlow : String → Bool
  /-- search `\w+\[\s*i\s*\]`. -/
  reMemSeq : String → Bool
  /-- search `\w+\[\s*i\s*\*\s*\d+\s*\]`. -/
  reMemStride : String → Bool
  /-- search `\w+\[\s*\w+\[\s*i\s*\]\s*\]`. -/
  reMemIndirect : String → Bool
  /-- search `\bint\b`. -/
  reTypeInt : String → Bool
  /-- search `\bfloat\b`. -/
  reTypeFloat : String → Bool
  /-- search `\bdouble\b`. -/
  reTypeDouble : String → Bool
  /-- search `\bchar\b`. -/
  reTypeChar : String → Bool
  /-- search `\blong\b`. -/
  reTypeLong : String → Bool
  /-- search `\bshort\b`. -/
  reTypeShort : String → Bool

/-- A detector valuation with every probe negative; concrete witness inputs
override the fields they need. -/
def no_detect : Detectors :=
  { offsetNumArrayCount := fun _ => 0, callLikeCount := fun _ => 0,
    rePlusEq := fun _ => false, reStarEq := fun _ => false,
    reAssignPlus := fun _ => false, offsetWordArray := fun _ => false,
    reForLoop := fun _ => false, reWhileLoop := fun _ => false,
    reDoLoop := fun _ => false, reSimpleIndex := fun _ => false,
    reMultiDim := fun _ => false, reComplexIndex := fun _ => false,
    rePlusMinus := fun _ => false, reMulDiv := fun _ => false,
    reBitwise := fun _ => false, reCompare := fun _ => false,
    reAssign := fun _ => false, reMathFn := fun _ => false,
    variableCount := fun _ => 0, reCallShape := fun _ => false,
    reControlFlow := fun _ => false, reMemSeq := fun _ => false,
    reMemStride := fun _ => false, reMemIndirect := fun _ => false,
    reTypeInt := fun _ => false, reTypeFloat := fun _ => false,
    reTypeDouble := fun _ => false, reTypeChar := fun _ => false,
    reTypeLong := fun _ => false, reTypeShort := fun _ => false }

/-- `CodeBlock` of `code_block_analyzer.py` (child blocks omitted: no claim
reads them).  A not-yet-assigned `parallelization_potential` (Python `None`)
is modelled as the empty string, which no comparison in the code matches. -/
structure CodeBlock where
  blockType : String
  startLine : Int
  endLine : Int
  codeContent : String
  nestingLevel : Nat
  parallelizationPotential : String
  analysisNotes : List String
deriving DecidableEq

/-- `CodeBlockAnalyzer._check_data_dependencies`: an offset array access or
more than two call-shaped occurrences. -/
def check_data_dependencies (D : Detectors) (code : String) : Bool :=
  decide (0 < D.offsetNumArrayCount code) || decide (2 < D.callLikeCount code)

/-- `CodeBlockAnalyzer._check_reduction_patterns`. -/
def check_reduction_patterns (D : Detectors) (code : String) : Bool :=
  D.rePlusEq code || D.reStarEq code || D.reAssignPlus code

/-- `CodeBlockAnalyzer._check_vectorization_potential` (computed by
`_analyze_loop_parallelization` but not read by its decision). -/
def check_vectorization_potential (code : String) : Bool :=
  ["+", "-", "*", "/", "sqrt", "sin", "cos", "exp"].any
    (fun op => containsSub code op)

/-- `CodeBlockAnalyzer._determine_loop_block_type`. -/
def determine_loop_block_type (blockLines : List String) (nestingLevel : Nat) : String :=
  let codeText := (String.intercalate "\n" blockLines).pyLower
  if 2 ≤ nestingLevel then "nested_loops"
  else if containsSub codeText "vector" ||
      ["*", "+", "-", "/"].any (fun op => containsSub codeText op) then "vectorizable_loop"
  else if ["sum", "total", "count", "accumulate"].any
      (fun w => containsSub codeText w) then "reduction_loop"
  else "simple_loop"

/-- `CodeBlockAnalyzer._analyze_loop_parallelization`: the
(parallelization_potential, analysis_notes) pair the method writes into the
block, keyed on the block type, the dependency heuristic and the reduction
heuristic. -/
def analyze_loop_parallelization (D : Detectors) (b : CodeBlock) : String × List String :=
  let code := b.codeContent.pyLower
  let hasDeps := check_data_dependencies D code
  let hasRed := check_reduction_patterns D code
  if b.blockType = "nested_loops" then
    if hasDeps then
      ("limited",
       ["Nested loop structure detected",
        "Data dependencies may limit parallelization",
        "Consider loop interchange or blocking",
        "Inner loop may be vectorizable if dependencies are in outer loop only"])
    else
      ("good",
       ["Nested loop structure with good parallelization potential",
        "Outer loop can use #pragma omp parallel for",
        "Inner loop can use #pragma omp simd for vectorization",
        "Consider collapse(2) for better load balancing"])
  else if b.blockType = "vectorizable_loop" then
    ("excellent",
     ["Arithmetic-heavy loop suitable for vectorization",
      "Use #pragma omp simd for SIMD parallelization",
      "Good candidate for compiler auto-vectorization",
      "Check for alignment and loop bounds"])
  else if hasRed then
    ("good",
     ["Reduction pattern detected",
      "Use #pragma omp parallel for reduction(+:variable)",
      "Ensure reduction variable is properly identified",
      "Good scalability with thread count"])
  else
    ("moderate",
     ["Simple loop structure",
      "Basic parallelization with #pragma omp parallel for",
      "Check for data dependencies",
      "Verify thread safety of operations"])

/-! ## hybrid_analyzer.py -/

/-- `HybridAnalyzer._calculate_hybrid_confidence`: blend of the
candidate-type base, the AI-classification boost and the scaled AI
confidence, clamped to [0, 1]. -/
def calculate_hybrid_confidence (r : Cand) : ℚ :=
  let base : ℚ := 0.5
  let base :=
    if r.candidateType = "vectorizable" ∨ r.candidateType = "embarrassingly_parallel" then
      base + 0.2
    else if r.candidateType = "simple_loop" then base + 0.1
    else if r.candidateType = "risky" then base - 0.2
    else base
  let aiConfidence := ai_confidence_d r 0.5
  let aiClassification := ai_classification_d r "unknown"
  let aiBoost : ℚ :=
    if aiClassification = "safe_parallel" then 0.3
    else if aiClassification = "requires_runtime_check" then 0
    else if aiClassification = "not_parallel" then -0.4
    else 0.1
  let hybrid := (base + aiBoost + aiConfidence * 0.3) / 2
  max 0 (min 1 hybrid)

/-- `HybridAnalyzer._analyze_block_safety`: the
(has_dependencies, has_shared_vars, is_simple) triple. -/
def analyze_block_safety (D : Detectors) (b : CodeBlock) : Bool × Bool × Bool :=
  let code := b.codeContent.pyLower
  let hasDeps := D.offsetWordArray code || decide (2 < D.callLikeCount code)
  let hasShared := containsSub code "=" &&
    (containsSub code "static" || containsSub code "global")
  (hasDeps, hasShared, !hasDeps && !hasShared)

/-- `HybridAnalyzer._get_block_transformations`. -/
def get_block_transformations (b : CodeBlock) : List String :=
  if b.blockType = "nested_loops" then
    ["#pragma omp parallel for collapse(2)", "Consider loop interchange"]
  else if b.blockType = "vectorizable_loop" then
    ["#pragma omp simd", "#pragma omp parallel for"]
  else
    ["#pragma omp parallel for", "Verify data dependencies"]

/-- `HybridAnalyzer._get_default_block_analysis` (the `ai_analysis` entry). -/
def default_block_analysis (b : CodeBlock) : AiAnalysis :=
  { classification := "requires_runtime_check",
    confidence := 0.5,
    reasoning := "Block-level analysis for " ++ b.blockType,
    transformations := get_block_transformations b,
    testsRecommended := ["Runtime dependency analysis required"],
    blockUnified := true }

/-- `HybridAnalyzer._determine_unified_block_analysis`: the consensus
`ai_analysis` for a block, keyed on block type, block potential, the member
candidate types, the member classifications and the block safety heuristic. -/
def determine_unified_block_analysis (D : Detectors) (blockResults : List Cand)
    (b : CodeBlock) : AiAnalysis :=
  if blockResults.isEmpty then default_block_analysis b
  else
    let safety := analyze_block_safety D b
    let classifications := blockResults.map (fun r => ai_classification_d r "")
    let candidateTypes := blockResults.map (fun r => r.candidateType)
    let chosen : String × ℚ × String :=
      if b.blockType = "nested_loops" then
        if b.parallelizationPotential = "limited" then
          ("requires_runtime_check", 0.6,
           "Nested loop structure with limited parallelization potential; requires careful analysis")
        else
          ("safe_parallel", 0.8,
           "Nested loop structure with good parallelization potential")
      else if b.blockType = "vectorizable_loop" then
        ("safe_parallel", 0.9,
         "Vectorizable loop structure with excellent parallelization potential")
      else if candidateTypes.contains "vectorizable" then
        ("safe_parallel", 0.8,
         "Block contains vectorizable patterns suitable for parallelization")
      else if classifications.contains "not_parallel" || safety.1 then
        ("not_parallel", 0.4,
         "Block contains dependencies or patterns that limit parallelization")
      else
        ("requires_runtime_check", 0.6,
         "Block requires runtime verification for safe parallelization")
    { classification := chosen.1,
      confidence := chosen.2.1,
      reasoning := chosen.2.2,
      transformations := get_block_transformations b,
      testsRecommended :=
        ["Verify data dependencies within block",
         "Test parallel vs sequential execution",
         "Performance benchmarking for entire block"],
      blockUnified := true }

/-- The dict key `f"{start_line}-{end_line}"` of a block group. -/
def block_key (b : CodeBlock) : String :=
  toString b.startLine ++ "-" ++ toString b.endLine

/-- `HybridAnalyzer._find_matching_code_block`: smallest block whose span
contains the result line (first wins on span ties); a line number 0 (the
`.get("line", 0)` default, Python-falsy) matches nothing. -/
def find_matching_code_block (line : Int) (blocks : List CodeBlock) : Option CodeBlock :=
  if line = 0 ∨ blocks.isEmpty then none
  else
    blocks.foldl
      (fun best b =>
        if b.startLine ≤ line ∧ line ≤ b.endLine then
          match best with
          | none => some b
          | some b0 =>
              if b.endLine - b.startLine < b0.endLine - b0.startLine then some b else best
        else best)
      none

/-- The `code_block` info dict `_unify_block_analysis` attaches to each
member of a block group. -/
def make_block_info (b : CodeBlock) : BlockInfo :=
  { btype := b.blockType,
    startLine := b.startLine,
    endLine := b.endLine,
    nestingLevel := b.nestingLevel,
    parallelizationPotential := b.parallelizationPotential,
    analysisNotes := b.analysisNotes,
    blockAnalysis := "Code block (" ++ toString b.startLine ++ "-" ++
      toString b.endLine ++ "): " ++ b.parallelizationPotential ++
      " parallelization potential" }

/-- Overwrite a member result with the unified analysis and block info. -/
def apply_unified (u : AiAnalysis) (b : CodeBlock) (r : Cand) : Cand :=
  { r with aiAnalysis := some u, codeBlock := some (make_block_info b) }

/-- One block group: dict key, the `block` stored at key creation, and the
member results in arrival order. -/
abbrev BlockGroup := String × CodeBlock × List Cand

/-- Append a result to the group with the given key, creating the group at
the end when the key is new (Python insertion-ordered dict). -/
def insert_grouped : List BlockGroup → String → CodeBlock → Cand → List BlockGroup
  | [], key, b, r => [(key, b, [r])]
  | g :: rest, key, b, r =>
      if g.1 = key then (g.1, g.2.1, g.2.2 ++ [r]) :: rest
      else g :: insert_grouped rest key b r

/-- One iteration of the grouping loop of `_unify_block_analysis`: a result
with a matching block goes to the group of that block, the rest to the ungrouped
list. -/
def group_step (blocks : List CodeBlock) (acc : List BlockGroup × List Cand)
    (r : Cand) : List BlockGroup × List Cand :=
  match find_matching_code_block r.line blocks with
  | some b => (insert_grouped acc.1 (block_key b) b r, acc.2)
  | none => (acc.1, acc.2 ++ [r])

/-- `HybridAnalyzer._unify_block_analysis`: group results by smallest
enclosing block, overwrite each member of a group with the unified
analysis, then append the ungrouped results unchanged. -/
def unify_block_analysis (D : Detectors) (results : List Cand)
    (blocks : List CodeBlock) : List Cand :=
  if blocks.isEmpty then results
  else
    let grouped := results.foldl (group_step blocks) ([], [])
    let unified := grouped.1.foldl
      (fun out g =>
        out ++ g.2.2.map
          (apply_unified (determine_unified_block_analysis D g.2.2 g.2.1) g.2.1))
      []
    unified ++ grouped.2

/-! ## Theorems for C10 -/

/-- C10: the combined confidence attached at finalization by
`_calculate_hybrid_confidence` lies in [0, 1] for every candidate type, AI
classification and AI confidence in the input. -/
theorem hybrid_confidence_in_unit_interval (r : Cand) :
    0 ≤ calculate_hybrid_confidence r ∧ calculate_hybrid_confidence r ≤ 1 :=
  ⟨le_max_left _ _, max_le (by norm_num) (min_le_left _ _)⟩

/-! ## Theorems for C6 -/

/-- C6: the impact score of every loop region equals
nesting² × 25 + arrayOps × 15 + arithmeticOps × 8 + memoryComplexity × 12 +
regionSize × 2 − functionCalls × 10, plus a flat +20 exactly when the region
has at least one array operation and zero function calls, floored at 0; and
`analyze_hotspots` retains only regions scoring at least 50 (each taken from
the input), returns at most 10 of them, in descending score order. -/
theorem hotspot_impact_formula_and_selection (regions : List LoopRegion) :
    (∀ h : LoopRegion,
      calculate_impact_score h =
        max (h.nestingDepth ^ 2 * 25 + h.arrayOperations * 15 +
          h.arithmeticOperations * 8 + h.memoryAccessComplexity * 12 +
          loop_size h * 2 - h.functionCalls * 10 +
          (if 0 < h.arrayOperations ∧ h.functionCalls = 0 then 20 else 0)) 0) ∧
    (∀ h ∈ analyze_hotspots regions,
      (50 : Int) ≤ calculate_impact_score h ∧ h ∈ regions) ∧
    (analyze_hotspots regions).length ≤ 10 ∧
    (analyze_hotspots regions).Sorted byImpactGe := by
  refine ⟨?_, ?_, ?_, ?_⟩
  · intro h
    simp only [calculate_impact_score]
    split_ifs with hb
    · congr 1
      ring
    · congr 1
      ring
  · intro h hmem
    have h1 : h ∈ (regions.filter
        (fun h => (50 : Int) ≤ calculate_impact_score h)).insertionSort byImpactGe :=
      List.take_subset _ _ hmem
    have h2 := (List.perm_insertionSort byImpactGe _).subset h1
    have h3 := List.mem_filter.mp h2
    exact ⟨by simpa using h3.2, h3.1⟩
  · exact (List.length_take_le _ _)
  · exact List.Pairwise.sublist (List.take_sublist _ _)
      (List.sorted_insertionSort byImpactGe _)

/-- C6 witness: a concrete nested region with two array operations and no
calls scores 95 and is retained from a one-region input. -/
theorem hotspot_impact_formula_witness :
    (50 : Int) ≤ calculate_impact_score ⟨1, 11, "main", 1, 2, 0, 0, 0⟩ ∧
      (⟨1, 11, "main", 1, 2, 0, 0, 0⟩ : LoopRegion) ∈
        [(⟨1, 11, "main", 1, 2, 0, 0, 0⟩ : LoopRegion)] :=
  (hotspot_impact_formula_and_selection
      [⟨1, 11, "main", 1, 2, 0, 0, 0⟩]).2.1 _ (by decide)

/-! ## Theorems for C8 -/

/-- Matched candidates are among the post-call candidate-list contents. -/
theorem hotspot_matched_subset (cands : List Cand) (hotspots : List LoopRegion) :
    hotspot_matched cands hotspots ⊆ hotspot_updated cands hotspots :=
  ((List.filter_sublist (hotspot_pairs cands hotspots)).map Prod.fst).subset

/-- When no candidate matched any hotspot, the candidate list is untouched. -/
theorem hotspot_updated_of_no_match (cands : List Cand) (hotspots : List LoopRegion)
    (h : (hotspot_matched cands hotspots).isEmpty = true) :
    hotspot_updated cands hotspots = cands := by
  have hf : (hotspot_pairs cands hotspots).filter (fun pr => pr.2) = [] := by
    have hm : hotspot_matched cands hotspots = [] := List.isEmpty_iff.mp h
    exact List.map_eq_nil_iff.mp hm
  have hall := List.filter_eq_nil_iff.mp hf
  unfold hotspot_updated hotspot_pairs
  have : ∀ c ∈ cands,
      (match hotspots.find? (fun h => in_hotspot_range c.line h) with
        | some h => (annotate_with_hotspot c h, true)
        | none => (c, false)).fst = c := by
    intro c hcmem
    cases hfind : hotspots.find? (fun h => in_hotspot_range c.line h) with
    | none => rfl
    | some hh =>
        exfalso
        apply hall (annotate_with_hotspot c hh, true)
        · unfold hotspot_pairs
          refine List.mem_map.mpr ⟨c, hcmem, ?_⟩
          rw [hfind]
        · rfl
  rw [List.map_map]
  calc (cands.map _) = cands.map id := List.map_congr_left (fun a ha => this a ha)
    _ = cands := List.map_id _

/-- C8: hotspot filtering is a subset operation: every candidate in the list
returned by `filter_candidates_by_hotspots` is an element of the candidate
list it was given (whose matching elements it annotated in place), in all
three branches: no hotspots, at least one candidate inside a hotspot span,
and no candidate inside any span. -/
theorem hotspot_filter_is_subset (cands : List Cand) (hotspots : List LoopRegion)
    (c : Cand) (hc : c ∈ (filter_candidates_by_hotspots cands hotspots).2) :
    c ∈ (filter_candidates_by_hotspots cands hotspots).1 := by
  unfold filter_candidates_by_hotspots at hc ⊢
  by_cases h0 : hotspots.isEmpty
  · simpa [h0] using hc
  · by_cases h1 : (hotspot_matched cands hotspots).isEmpty
    · simp only [h0, h1, if_true, if_false, Bool.false_eq_true] at hc ⊢
      have h2 : c ∈ cands :=
        (List.perm_insertionSort candLineLe _).subset (List.take_subset _ _ hc)
      rw [hotspot_updated_of_no_match cands hotspots h1]
      exact h2
    · simp only [h0, h1, if_true, if_false, Bool.false_eq_true] at hc ⊢
      exact hotspot_matched_subset cands hotspots
        ((List.perm_insertionSort candHScoreGe _).subset hc)

/-- C8 witness: one candidate on line 2 inside a single hotspot spanning lines
1 to 3 is returned annotated, and is an element of the post-call candidate
list. -/
theorem hotspot_filter_is_subset_witness :
    ({ file := "t.cpp", line := 2, funcName := "f", candidateType := "vectorizable",
       reason := "", suggestedPatch := "", hotspotPriority := true,
       hotspotScore := some 95, aiAnalysis := none, codeBlock := none } : Cand) ∈
      (filter_candidates_by_hotspots
        [{ file := "t.cpp", line := 2, funcName := "f", candidateType := "vectorizable",
           reason := "", suggestedPatch := "", hotspotPriority := false,
           hotspotScore := none, aiAnalysis := none, codeBlock := none }]
        [⟨1, 11, "main", 1, 2, 0, 0, 0⟩]).1 :=
  hotspot_filter_is_subset _ _ _ (by decide)

/-! ## Theorems for C7 -/

/-- Detector valuation of the counterexample block below: the offset-array
regex `\w+\[\s*\w+\s*[+-]\s*\d+\s*\]` matches `a[i+1]` once and the
call-shaped regex matches `for (...)` once, as on the real text. -/
def c7_detect : Detectors :=
  { no_detect with offsetNumArrayCount := fun _ => 1, callLikeCount := fun _ => 1 }

/-- A single (non-nested) loop whose body contains `a[i+1]`: its text contains
`+`, so `_determine_loop_block_type` classifies it `vectorizable_loop`, and
the dependency heuristic of `_check_data_dependencies` fires on it. -/
def c7_block : CodeBlock :=
  { blockType := "vectorizable_loop", startLine := 1, endLine := 3,
    codeContent := "for (i = 0; i < n; i++) { a[i+1] = a[i] + 1; }",
    nestingLevel := 1, parallelizationPotential := "", analysisNotes := [] }

/-- C7 counterexample: a loop block on which the dependency heuristic fires
(offset array access `a[i+1]`), whose block type is `vectorizable_loop` (as
`_determine_loop_block_type` assigns to this text at nesting 1), is given
parallelization potential `excellent`, not `limited`: the lowering applies
only to nested-loops blocks, not to every block type as claimed. -/
theorem dependency_heuristic_not_global_counterexample :
    check_data_dependencies c7_detect (c7_block.codeContent.pyLower) = true ∧
    determine_loop_block_type
      ["for (i = 0; i < n; i++) \x7b", "a[i+1] = a[i] + 1;", "\x7d"] 1 = "vectorizable_loop" ∧
    (analyze_loop_parallelization c7_detect c7_block).1 = "excellent" ∧
    (analyze_loop_parallelization c7_detect c7_block).1 ≠ "limited" := by
  refine ⟨by decide, by decide, by decide, by decide⟩

/-- C7 amended: on a nested-loops block the dependency heuristic (offset
array access or more than two call-shaped occurrences) forces
parallelization potential `limited`; for the other block types
(vectorizable-loop, reduction-loop, simple-loop) the decision table ignores
the heuristic. -/
theorem dependency_heuristic_limits_nested_loops (D : Detectors) (b : CodeBlock)
    (hty : b.blockType = "nested_loops")
    (hdep : check_data_dependencies D b.codeContent.pyLower = true) :
    (analyze_loop_parallelization D b).1 = "limited" := by
  simp only [analyze_loop_parallelization, hty, hdep, if_true]

/-- C7 witness: a concrete nested-loops block with a detected offset array
access is assigned potential `limited`. -/
theorem dependency_heuristic_limits_nested_loops_witness :
    (analyze_loop_parallelization
      { no_detect with offsetNumArrayCount := fun _ => 1 }
      { blockType := "nested_loops", startLine := 1, endLine := 5,
        codeContent := "for (i = 0; i < n; i++) { for (j = 0; j < n; j++) { a[i+1] = a[j]; } }",
        nestingLevel := 2, parallelizationPotential := "", analysisNotes := [] }).1
      = "limited" :=
  dependency_heuristic_limits_nested_loops _ _ (by decide) (by decide)

/-! ## Theorems for C3 -/

/-- A nested-loops block with limited potential, for the C3 counterexample. -/
def c3_block : CodeBlock :=
  { blockType := "nested_loops", startLine := 10, endLine := 20,
    codeContent := "", nestingLevel := 2,
    parallelizationPotential := "limited", analysisNotes := [] }

/-- A member candidate already classified `not_parallel`. -/
def c3_member : Cand :=
  { file := "t.cpp", line := 12, funcName := "f", candidateType := "simple_loop",
    reason := "", suggestedPatch := "", hotspotPriority := false,
    hotspotScore := none,
    aiAnalysis := some
      { classification := "not_parallel", confidence := 0.9, reasoning := "",
        transformations := [], testsRecommended := [], blockUnified := false },
    codeBlock := none }

/-- C3 counterexample: a nested-loops block whose single member is already
classified `not_parallel` receives consensus `requires_runtime_check`, not
`not_parallel`: the unsafe-member rule is only consulted in the fallback
branch of the decision table, not for every block type as claimed. -/
theorem unsafe_member_not_conservative_counterexample :
    ([c3_member].map (fun r => ai_classification_d r "")).contains "not_parallel" = true ∧
    (determine_unified_block_analysis no_detect [c3_member] c3_block).classification
      = "requires_runtime_check" ∧
    (determine_unified_block_analysis no_detect [c3_member] c3_block).classification
      ≠ "not_parallel" := by
  refine ⟨by decide, by decide, by decide⟩

/-- C3 amended: a member classified `not_parallel` forces the consensus
classification `not_parallel` exactly in the fallback branch: when the block
type is neither `nested_loops` nor `vectorizable_loop` and no member
candidate is of type `vectorizable`. -/
theorem unsafe_member_forces_not_parallel (D : Detectors) (rs : List Cand)
    (b : CodeBlock)
    (hcls : (rs.map (fun r => ai_classification_d r "")).contains "not_parallel" = true)
    (hty1 : b.blockType ≠ "nested_loops")
    (hty2 : b.blockType ≠ "vectorizable_loop")
    (hvec : (rs.map (fun r => r.candidateType)).contains "vectorizable" = false) :
    (determine_unified_block_analysis D rs b).classification = "not_parallel" := by
  have hne : rs.isEmpty = false := by
    cases rs with
    | nil => simp at hcls
    | cons a t => rfl
  simp only [determine_unified_block_analysis, hne, Bool.false_eq_true, if_false,
    hty1, hty2, hvec, hcls, Bool.true_or, if_true]

/-- C3 witness: a simple-loop block with one `not_parallel` member and no
vectorizable member gets consensus `not_parallel`. -/
theorem unsafe_member_forces_not_parallel_witness :
    (determine_unified_block_analysis no_detect [c3_member]
      { blockType := "simple_loop", startLine := 1, endLine := 5,
        codeContent := "", nestingLevel := 1,
        parallelizationPotential := "moderate", analysisNotes := [] }).classification
      = "not_parallel" :=
  unsafe_member_forces_not_parallel _ _ _ (by decide) (by decide) (by decide) (by decide)

/-! ## pattern_cache.py -/

/-- Lexicographic (code point) order on strings as a Boolean, for Python
`sorted`. -/
def listLeB : List Char → List Char → Bool
  | [], _ => true
  | _ :: _, [] => false
  | a :: as, b :: bs =>
      if a < b then true else if b < a then false else listLeB as bs

/-- Insert into a sorted list of strings. -/
def insertStr (x : String) : List String → List String
  | [] => [x]
  | y :: ys => if listLeB x.data y.data then x :: y :: ys else y :: insertStr x ys

/-- Python `sorted` on a list of strings (stable insertion sort, code-point
order). -/
def pySorted : List String → List String
  | [] => []
  | x :: xs => insertStr x (pySorted xs)

/-- `CodePattern` dataclass: the structural fingerprint source. -/
structure CodePattern where
  loopType : String
  arrayAccessPattern : String
  operationTypes : List String
  variableCount : Nat
  nestingDepth : Int
  hasFunctionCalls : Bool
  hasControlFlow : Bool
  memoryPattern : String
  dataTypes : List String
deriving DecidableEq

/-- `_detect_loop_type`. -/
def detect_loop_type (D : Detectors) (code : String) : String :=
  if D.reForLoop code then "for"
  else if D.reWhileLoop code then "while"
  else if D.reDoLoop code then "do-while"
  else "unknown"

/-- `_analyze_array_access`. -/
def analyze_array_access (D : Detectors) (code : String) : String :=
  if D.reSimpleIndex code then
    if D.reMultiDim code then "multi_dimensional"
    else if D.reComplexIndex code then "complex"
    else "simple"
  else "none"

/-- `_extract_operations` (probe order as in the source; empty result becomes
`["unknown"]`). -/
def extract_operations (D : Detectors) (code : String) : List String :=
  let ops : List String := []
  let ops := ops ++ (if D.rePlusMinus code then ["arithmetic"] else [])
  let ops := ops ++ (if D.reMulDiv code then ["multiplication"] else [])
  let ops := ops ++ (if D.reBitwise code then ["bitwise"] else [])
  let ops := ops ++ (if D.reCompare code then ["comparison"] else [])
  let ops := ops ++ (if D.reAssign code then ["assignment"] else [])
  let ops := ops ++ (if D.reMathFn code then ["mathematical"] else [])
  if ops.isEmpty then ["unknown"] else ops

/-- `_calculate_nesting_depth`: brace-counting fold over the characters. -/
def calculate_nesting_depth (code : String) : Int :=
  (code.data.foldl
    (fun (acc : Int × Int) ch =>
      if ch = '{' then (max acc.1 (acc.2 + 1), acc.2 + 1)
      else if ch = '}' then (acc.1, acc.2 - 1)
      else acc)
    (0, 0)).1

/-- `_analyze_memory_pattern`. -/
def analyze_memory_pattern (D : Detectors) (code : String) : String :=
  if D.reMemSeq code then "sequential"
  else if D.reMemStride code then "strided"
  else if D.reMemIndirect code then "indirect"
  else "unknown"

/-- `_extract_data_types` (probe order as in the source dict). -/
def extract_data_types (D : Detectors) (code : String) : List String :=
  let ts : List String := []
  let ts := ts ++ (if D.reTypeInt code then ["int"] else [])
  let ts := ts ++ (if D.reTypeFloat code then ["float"] else [])
  let ts := ts ++ (if D.reTypeDouble code then ["double"] else [])
  let ts := ts ++ (if D.reTypeChar code then ["char"] else [])
  let ts := ts ++ (if D.reTypeLong code then ["long"] else [])
  let ts := ts ++ (if D.reTypeShort code then ["short"] else [])
  if ts.isEmpty then ["unknown"] else ts

/-- `_extract_code_pattern`.  The `candidate_info` argument is accepted but,
as in the source, never read: the fingerprint is a function of the snippet
alone. -/
def extract_code_pattern (D : Detectors) (snippet : String) (_info : Cand) :
    CodePattern :=
  { loopType := detect_loop_type D snippet,
    arrayAccessPattern := analyze_array_access D snippet,
    operationTypes := pySorted (extract_operations D snippet),
    variableCount := D.variableCount snippet,
    nestingDepth := calculate_nesting_depth snippet,
    hasFunctionCalls := D.reCallShape snippet,
    hasControlFlow := D.reControlFlow snippet,
    memoryPattern := analyze_memory_pattern D snippet,
    dataTypes := pySorted (extract_data_types D snippet) }

/-- `_hash_pattern` computes the SHA-256 digest of the canonical JSON of the
pattern and uses it purely as a dictionary / index key; the digest is
modelled by the pattern value itself (the code relies on the digest
separating distinct patterns). -/
def hash_pattern (p : CodePattern) : CodePattern := p

/-- `CachedAnalysis` dataclass. -/
structure CachedAnalysis where
  analysis : AiAnalysis
  timestamp : ℚ
  usageCount : Nat
  patternHash : CodePattern
  originalCodeSnippet : String
  confidence : ℚ
deriving DecidableEq

/-- `PatternCache` state: capacity bound, the in-memory cache dict (an
insertion-ordered association list, as a Python dict) and the bucket index
(`pattern_index`, a defaultdict of fingerprint lists). -/
structure PatternCache where
  maxCacheSize : Nat
  memoryCache : List (CodePattern × CachedAnalysis)
  patternIndex : List (String × List CodePattern)
deriving DecidableEq

/-- `self.similarity_threshold = 0.85`. -/
def similarity_threshold : ℚ := 0.85

/-- `self.cache_expiry_hours = 24 * 7`. -/
def cache_expiry_hours : ℚ := 24 * 7

/-- Python dict read (first match of the key). -/
def alistGet (l : List (CodePattern × CachedAnalysis)) (k : CodePattern) :
    Option CachedAnalysis :=
  (l.find? (fun kv => kv.1 == k)).map (fun kv => kv.2)

/-- Python dict write: replace in place or append a new key. -/
def alistSet : List (CodePattern × CachedAnalysis) → CodePattern → CachedAnalysis →
    List (CodePattern × CachedAnalysis)
  | [], k, v => [(k, v)]
  | kv :: rest, k, v =>
      if kv.1 == k then (k, v) :: rest else kv :: alistSet rest k v

/-- `self.pattern_index.get(key, [])` (defaultdict read). -/
def indexGet (idx : List (String × List CodePattern)) (k : String) :
    List CodePattern :=
  ((idx.find? (fun kv => kv.1 == k)).map (fun kv => kv.2)).getD []

/-- defaultdict write at a key. -/
def indexSet : List (String × List CodePattern) → String → List CodePattern →
    List (String × List CodePattern)
  | [], k, v => [(k, v)]
  | kv :: rest, k, v =>
      if kv.1 == k then (k, v) :: rest else kv :: indexSet rest k v

/-- The bucket key `f"{loop_type}_{array_access_pattern}"`. -/
def category_key (p : CodePattern) : String :=
  p.loopType ++ "_" ++ p.arrayAccessPattern

/-- `_update_pattern_index`: append the fingerprint to its bucket if not
already present. -/
def update_pattern_index (st : PatternCache) (p : CodePattern)
    (ph : CodePattern) : PatternCache :=
  let key := category_key p
  let cur := indexGet st.patternIndex key
  if cur.contains ph then st
  else { st with patternIndex := indexSet st.patternIndex key (cur ++ [ph]) }

/-- `_is_cache_valid`: age in hours below the expiry bound. -/
def is_cache_valid (now : ℚ) (e : CachedAnalysis) : Bool :=
  decide ((now - e.timestamp) / 3600 < cache_expiry_hours)

/-- `_calculate_pattern_similarity`: the heuristic actually executed (the
weighted `comparisons` list in the source is built and then never used; the
returned score is 0.8, 0.75 or 0.6 by the loop type of the query and the
confidence snapshot of the cached entry, or 0.0 when the hash is not in the
cache). -/
def calculate_pattern_similarity (st : PatternCache) (p1 : CodePattern)
    (h2 : CodePattern) : ℚ :=
  match alistGet st.memoryCache h2 with
  | none => 0
  | some entry =>
      if p1.loopType = "for" ∧ entry.confidence > 0.7 then 0.8
      else if p1.loopType = "while" ∧ entry.confidence > 0.6 then 0.75
      else 0.6

/-- `_find_similar_pattern`: scan the bucket of the query pattern for the
best valid entry with similarity at least the threshold (strictly improving
over the running best, which starts at 0).  The usage-count increment on
considered entries only influences later eviction order and is not part of
the returned value. -/
def find_similar_pattern (now : ℚ) (st : PatternCache) (target : CodePattern) :
    Option AiAnalysis :=
  let candidateHashes := indexGet st.patternIndex (category_key target)
  (candidateHashes.foldl
    (fun (best : ℚ × Option AiAnalysis) ch =>
      match alistGet st.memoryCache ch with
      | none => best
      | some entry =>
          if !(is_cache_valid now entry) then best
          else
            let sim := calculate_pattern_similarity st target ch
            if sim ≥ similarity_threshold ∧ sim > best.1 then (sim, some entry.analysis)
            else best)
    (0, none)).2

/-- `PatternCache.get_cached_analysis`: exact fingerprint hit on a valid
entry returns the stored payload; otherwise (miss or expired) fall through
to the similarity search. -/
def get_cached_analysis (D : Detectors) (now : ℚ) (st : PatternCache)
    (snippet : String) (info : Cand) : Option AiAnalysis :=
  let pattern := extract_code_pattern D snippet info
  let ph := hash_pattern pattern
  match alistGet st.memoryCache ph with
  | some cached =>
      if is_cache_valid now cached then some cached.analysis
      else find_similar_pattern now st pattern
  | none => find_similar_pattern now st pattern

/-- Ascending eviction order of `_cleanup_cache`:
`key=lambda x: (x[1].usage_count, x[1].timestamp)`. -/
def byUsageAge (a b : CodePattern × CachedAnalysis) : Prop :=
  a.2.usageCount < b.2.usageCount ∨
    (a.2.usageCount = b.2.usageCount ∧ a.2.timestamp ≤ b.2.timestamp)

instance : DecidableRel byUsageAge :=
  fun _ _ => inferInstanceAs (Decidable (_ ∨ _))

/-- `_cleanup_cache`: when over capacity, delete the first
`len - max_cache_size` entries in ascending (usage count, age) order. -/
def cleanup_cache (st : PatternCache) : PatternCache :=
  if st.memoryCache.length ≤ st.maxCacheSize then st
  else
    let sortedEntries := st.memoryCache.insertionSort byUsageAge
    let toRemove := st.memoryCache.length - st.maxCacheSize
    let removeKeys := (sortedEntries.take toRemove).map (fun kv => kv.1)
    { st with
      memoryCache := st.memoryCache.filter (fun kv => !(removeKeys.contains kv.1)) }

/-- `PatternCache.cache_analysis`: build the entry (usage 1, current time,
confidence snapshot from the payload, 200-character snippet preview), write
it into the memory cache, update the bucket index and run the capacity
cleanup.  Disk persistence is write-only and never read back within the
model. -/
def cache_analysis (D : Detectors) (now : ℚ) (st : PatternCache)
    (snippet : String) (info : Cand) (ai : AiAnalysis) :
    CodePattern × PatternCache :=
  let pattern := extract_code_pattern D snippet info
  let ph := hash_pattern pattern
  let entry : CachedAnalysis :=
    { analysis := ai, timestamp := now, usageCount := 1, patternHash := ph,
      originalCodeSnippet := ⟨snippet.data.take 200⟩, confidence := ai.confidence }
  let st1 := { st with memoryCache := alistSet st.memoryCache ph entry }
  let st2 := update_pattern_index st1 pattern ph
  let st3 := cleanup_cache st2
  (ph, st3)

/-! ## Theorems for C4 -/

/-- `_update_pattern_index` leaves the memory cache untouched. -/
theorem update_pattern_index_memoryCache (st : PatternCache) (p ph : CodePattern) :
    (update_pattern_index st p ph).memoryCache = st.memoryCache := by
  simp only [update_pattern_index]
  split <;> rfl

/-- `_update_pattern_index` leaves the capacity untouched. -/
theorem update_pattern_index_maxCacheSize (st : PatternCache) (p ph : CodePattern) :
    (update_pattern_index st p ph).maxCacheSize = st.maxCacheSize := by
  simp only [update_pattern_index]
  split <;> rfl

/-- A dict write grows the dict by at most one entry. -/
theorem alistSet_length_le (l : List (CodePattern × CachedAnalysis))
    (k : CodePattern) (v : CachedAnalysis) :
    (alistSet l k v).length ≤ l.length + 1 := by
  induction l with
  | nil => simp [alistSet]
  | cons kv rest ih =>
      simp only [alistSet]
      split
      · simp
      · simpa using Nat.succ_le_succ ih

/-- Reading back the key just written returns the written value. -/
theorem alistGet_set_self (l : List (CodePattern × CachedAnalysis))
    (k : CodePattern) (v : CachedAnalysis) :
    alistGet (alistSet l k v) k = some v := by
  induction l with
  | nil => simp [alistSet, alistGet]
  | cons kv rest ih =>
      simp only [alistSet]
      by_cases h : kv.1 == k
      · rw [if_pos h]
        simp [alistGet]
      · rw [if_neg h]
        unfold alistGet
        rw [List.find?_cons_of_neg _ (by simpa using h)]
        exact ih

/-- `_cleanup_cache` is the identity within capacity. -/
theorem cleanup_cache_of_le (st : PatternCache)
    (h : st.memoryCache.length ≤ st.maxCacheSize) :
    cleanup_cache st = st := by
  unfold cleanup_cache
  rw [if_pos h]

/-- C4 (amended): when the cache holds fewer entries than its capacity,
storing an analysis and immediately looking the same snippet and candidate
info up again returns the stored payload: the fingerprint is recomputed
identically, the fresh entry is an exact hit, and its age 0 is below the
one-week expiry. -/
theorem cache_roundtrip_below_capacity (D : Detectors) (now : ℚ)
    (st : PatternCache) (snippet : String) (info : Cand) (payload : AiAnalysis)
    (hcap : st.memoryCache.length < st.maxCacheSize) :
    get_cached_analysis D now
      (cache_analysis D now st snippet info payload).2 snippet info = some payload := by
  set P := extract_code_pattern D snippet info with hP
  set E : CachedAnalysis :=
    { analysis := payload, timestamp := now, usageCount := 1, patternHash := hash_pattern P,
      originalCodeSnippet := ⟨snippet.data.take 200⟩, confidence := payload.confidence }
    with hE
  set st1 : PatternCache :=
    { st with memoryCache := alistSet st.memoryCache (hash_pattern P) E } with hst1
  set st2 := update_pattern_index st1 P (hash_pattern P) with hst2
  have h2mem : st2.memoryCache = alistSet st.memoryCache (hash_pattern P) E := by
    rw [hst2, update_pattern_index_memoryCache]
  have h2max : st2.maxCacheSize = st.maxCacheSize := by
    rw [hst2, update_pattern_index_maxCacheSize]
  have hlen : st2.memoryCache.length ≤ st2.maxCacheSize := by
    rw [h2mem, h2max]
    exact le_trans (alistSet_length_le _ _ _) (Nat.succ_le_of_lt hcap)
  have hsnd : (cache_analysis D now st snippet info payload).2 = st2 := by
    show cleanup_cache st2 = st2
    exact cleanup_cache_of_le _ hlen
  rw [hsnd]
  show (match alistGet st2.memoryCache (hash_pattern P) with
    | some cached =>
        if is_cache_valid now cached then some cached.analysis
        else find_similar_pattern now st2 P
    | none => find_similar_pattern now st2 P) = some payload
  rw [h2mem, alistGet_set_self]
  have hvalid : is_cache_valid now E = true := by
    simp only [is_cache_valid, hE, decide_eq_true_eq, cache_expiry_hours]
    rw [sub_self]
    norm_num
  simp only [hvalid, if_true]

/-- C4 witness: the round trip on an empty cache of capacity 1000. -/
theorem cache_roundtrip_below_capacity_witness :
    get_cached_analysis no_detect 0
      (cache_analysis no_detect 0 { maxCacheSize := 1000, memoryCache := [], patternIndex := [] }
        "for" { file := "t.cpp", line := 1, funcName := "f", candidateType := "vectorizable",
                reason := "", suggestedPatch := "", hotspotPriority := false,
                hotspotScore := none, aiAnalysis := none, codeBlock := none }
        { classification := "safe_parallel", confidence := 0.8, reasoning := "",
          transformations := [], testsRecommended := [], blockUnified := false }).2
      "for" { file := "t.cpp", line := 1, funcName := "f", candidateType := "vectorizable",
              reason := "", suggestedPatch := "", hotspotPriority := false,
              hotspotScore := none, aiAnalysis := none, codeBlock := none }
      = some { classification := "safe_parallel", confidence := 0.8, reasoning := "",
               transformations := [], testsRecommended := [], blockUnified := false } :=
  cache_roundtrip_below_capacity _ _ _ _ _ _ (by decide)

/-- C4 counterexample candidate info. -/
def c4_info : Cand :=
  { file := "t.cpp", line := 1, funcName := "f", candidateType := "vectorizable",
    reason := "", suggestedPatch := "", hotspotPriority := false,
    hotspotScore := none, aiAnalysis := none, codeBlock := none }

/-- C4 counterexample payload to store. -/
def c4_payload : AiAnalysis :=
  { classification := "safe_parallel", confidence := 0.8, reasoning := "",
    transformations := [], testsRecommended := [], blockUnified := false }

/-- A pre-existing fingerprint in the same `unknown_none` bucket. -/
def c4_pattern0 : CodePattern :=
  { loopType := "unknown", arrayAccessPattern := "none", operationTypes := ["unknown"],
    variableCount := 5, nestingDepth := 0, hasFunctionCalls := false,
    hasControlFlow := false, memoryPattern := "unknown", dataTypes := ["unknown"] }

/-- A pre-existing entry with usage count 2 (it outranks a fresh entry in the
eviction order). -/
def c4_entry0 : CachedAnalysis :=
  { analysis := { classification := "not_parallel", confidence := 0.9, reasoning := "",
                  transformations := [], testsRecommended := [], blockUnified := false },
    timestamp := 0, usageCount := 2, patternHash := c4_pattern0,
    originalCodeSnippet := "", confidence := 0.9 }

/-- A full cache of capacity 1 whose single entry has usage count 2. -/
def c4_state : PatternCache :=
  { maxCacheSize := 1, memoryCache := [(c4_pattern0, c4_entry0)],
    patternIndex := [("unknown_none", [c4_pattern0])] }

/-- C4 counterexample: at capacity, the store itself evicts the fresh entry
(usage 1 sorts before the resident usage-2 entry), so the immediate lookup
misses: the unconditional round-trip claim fails. -/
theorem cache_roundtrip_counterexample :
    get_cached_analysis no_detect 0
      (cache_analysis no_detect 0 c4_state "x" c4_info c4_payload).2 "x" c4_info
      ≠ some c4_payload := by decide

/-! ## Theorems for C2 -/

/-- Detector valuation for the C2 failing input: every snippet looks like a
`for` loop with simple array indexing; the variable count separates
fingerprints. -/
def c2_detect : Detectors :=
  { no_detect with
    reForLoop := fun _ => true
    reSimpleIndex := fun _ => true
    variableCount := fun s => s.data.length }

/-- C2 candidate info (never read by fingerprinting). -/
def c2_info : Cand :=
  { file := "t.cpp", line := 1, funcName := "f", candidateType := "vectorizable",
    reason := "", suggestedPatch := "", hotspotPriority := false,
    hotspotScore := none, aiAnalysis := none, codeBlock := none }

/-- C2 stored payload with confidence 0.9 (> 0.7, the branch that yields the
maximal similarity 0.8). -/
def c2_payload : AiAnalysis :=
  { classification := "safe_parallel", confidence := 0.9, reasoning := "",
    transformations := [], testsRecommended := [], blockUnified := false }

/-- A cache holding exactly the one entry stored for snippet `"a"`. -/
def c2_state : PatternCache :=
  (cache_analysis c2_detect 0
    { maxCacheSize := 1000, memoryCache := [], patternIndex := [] }
    "a" c2_info c2_payload).2

/-- C2: the similarity heuristic never reaches the 0.85 threshold, so a
similarity hit is unreachable: `_calculate_pattern_similarity` only returns
0.8, 0.75, 0.6 or 0.0; on a one-entry cache queried with a different
fingerprint in the same `(loopType, accessPattern)` bucket the computed
similarity is the maximal 0.8 < 0.85 and `get_cached_analysis` returns
`none` instead of the stored payload. -/
theorem similarity_hit_unreachable :
    (∀ (st : PatternCache) (p h2 : CodePattern),
      calculate_pattern_similarity st p h2 ≤ 0.8) ∧
    (0.8 : ℚ) < similarity_threshold ∧
    extract_code_pattern c2_detect "a" c2_info ≠ extract_code_pattern c2_detect "bb" c2_info ∧
    category_key (extract_code_pattern c2_detect "bb" c2_info) =
      category_key (extract_code_pattern c2_detect "a" c2_info) ∧
    calculate_pattern_similarity c2_state (extract_code_pattern c2_detect "bb" c2_info)
      (hash_pattern (extract_code_pattern c2_detect "a" c2_info)) = 0.8 ∧
    get_cached_analysis c2_detect 0 c2_state "bb" c2_info = none := by
  refine ⟨?_, by norm_num [similarity_threshold], by decide, by decide, by decide, by decide⟩
  intro st p h2
  unfold calculate_pattern_similarity
  cases halist : alistGet st.memoryCache h2 with
  | none => norm_num
  | some entry =>
      show (if p.loopType = "for" ∧ entry.confidence > 0.7 then (0.8 : ℚ)
        else if p.loopType = "while" ∧ entry.confidence > 0.6 then 0.75 else 0.6) ≤ 0.8
      split_ifs <;> norm_num

/-! ## Theorems for C5 -/

/-- Overwriting the analysis preserves the line number. -/
theorem apply_unified_line (u : AiAnalysis) (b : CodeBlock) (r : Cand) :
    (apply_unified u b r).line = r.line := rfl

/-- The classification of an overwritten member is the unified one. -/
theorem apply_unified_classification (u : AiAnalysis) (b : CodeBlock) (r : Cand) :
    ai_classification_d (apply_unified u b r) "" = u.classification := rfl

/-- Membership in an appending fold. -/
theorem foldl_append_mem {α β : Type} (f : α → List β) (l : List α)
    (init : List β) (x : β) :
    (x ∈ l.foldl (fun out g => out ++ f g) init) ↔
      x ∈ init ∨ ∃ g ∈ l, x ∈ f g := by
  induction l generalizing init with
  | nil => simp
  | cons a t ih =>
      rw [List.foldl_cons, ih]
      constructor
      · rintro (h | h)
        · rcases List.mem_append.mp h with h | h
          · exact Or.inl h
          · exact Or.inr ⟨a, by simp, h⟩
        · rcases h with ⟨g, hg, hx⟩
          exact Or.inr ⟨g, by simp [hg], hx⟩
      · rintro (h | ⟨g, hg, hx⟩)
        · exact Or.inl (List.mem_append.mpr (Or.inl h))
        · rcases List.mem_cons.mp hg with rfl | hg
          · exact Or.inl (List.mem_append.mpr (Or.inr hx))
          · exact Or.inr ⟨g, hg, hx⟩

/-- The keys of `insert_grouped`: unchanged when the key is present, appended
otherwise. -/
theorem insert_grouped_keys (gs : List BlockGroup) (key : String) (b : CodeBlock)
    (r : Cand) :
    (insert_grouped gs key b r).map (fun g => g.1) =
      if (gs.map (fun g => g.1)).contains key then gs.map (fun g => g.1)
      else gs.map (fun g => g.1) ++ [key] := by
  induction gs with
  | nil => simp [insert_grouped]
  | cons g0 rest ih =>
      simp only [insert_grouped]
      by_cases h : g0.1 = key
      · rw [if_pos h]
        simp [h]
      · rw [if_neg h]
        simp only [List.map_cons, List.contains_cons]
        have hbeq : (key == g0.1) = false := by
          simp [BEq.beq]
          exact fun he => h he.symm
        rw [hbeq]
        simp only [Bool.false_or]
        rw [ih]
        by_cases hc : (rest.map (fun g => g.1)).contains key
        · rw [if_pos hc, if_pos hc]
        · rw [if_neg hc, if_neg hc]
          simp

/-- `insert_grouped` keeps the group keys distinct. -/
theorem insert_grouped_keys_nodup (gs : List BlockGroup) (key : String)
    (b : CodeBlock) (r : Cand)
    (h : (gs.map (fun g => g.1)).Nodup) :
    ((insert_grouped gs key b r).map (fun g => g.1)).Nodup := by
  rw [insert_grouped_keys]
  by_cases hc : (gs.map (fun g => g.1)).contains key
  · rw [if_pos hc]
    exact h
  · rw [if_neg hc]
    have hnm : key ∉ gs.map (fun g => g.1) := by
      intro hmem
      exact hc (List.elem_iff.mpr hmem)
    simp [List.nodup_append, h, hnm]

/-- `insert_grouped` preserves a per-member predicate tied to the group key,
provided the inserted member satisfies it at the inserted key. -/
theorem insert_grouped_inv {P : Cand → String → Prop} (gs : List BlockGroup)
    (key : String) (b : CodeBlock) (r : Cand)
    (hr : P r key)
    (h : ∀ g ∈ gs, ∀ x ∈ g.2.2, P x g.1) :
    ∀ g ∈ insert_grouped gs key b r, ∀ x ∈ g.2.2, P x g.1 := by
  induction gs with
  | nil =>
      intro g hg x hx
      simp only [insert_grouped, List.mem_singleton] at hg
      subst hg
      simp only [List.mem_singleton] at hx
      subst hx
      exact hr
  | cons g0 rest ih =>
      intro g hg x hx
      simp only [insert_grouped] at hg
      by_cases hk : g0.1 = key
      · rw [if_pos hk] at hg
        rcases List.mem_cons.mp hg with rfl | hg
        · rcases List.mem_append.mp hx with hx | hx
          · exact h g0 (by simp) x hx
          · simp only [List.mem_singleton] at hx
            subst hx
            rw [hk]
            exact hr
        · exact h g (by simp [hg]) x hx
      · rw [if_neg hk] at hg
        rcases List.mem_cons.mp hg with rfl | hg
        · exact h g (by simp) x hx
        · exact ih (fun g2 hg2 x2 hx2 => h g2 (by simp [hg2]) x2 hx2) g hg x hx

/-- The member-to-key invariant of the grouping loop: every member of a group
matched a block whose dict key is the group key. -/
def GroupKeyInv (blocks : List CodeBlock) (x : Cand) (k : String) : Prop :=
  ∃ b0, find_matching_code_block x.line blocks = some b0 ∧ block_key b0 = k

/-- The grouping fold keeps: the member-to-key invariant, distinct group
keys, and no-matching-block for every ungrouped result. -/
theorem group_fold_invariants (blocks : List CodeBlock) (results : List Cand) :
    ∀ (gs0 : List BlockGroup) (ung0 : List Cand),
    (∀ g ∈ gs0, ∀ x ∈ g.2.2, GroupKeyInv blocks x g.1) →
    ((gs0.map (fun g => g.1)).Nodup) →
    (∀ x ∈ ung0, find_matching_code_block x.line blocks = none) →
    ((∀ g ∈ (results.foldl (group_step blocks) (gs0, ung0)).1,
        ∀ x ∈ g.2.2, GroupKeyInv blocks x g.1) ∧
      (((results.foldl (group_step blocks) (gs0, ung0)).1.map (fun g => g.1)).Nodup) ∧
      (∀ x ∈ (results.foldl (group_step blocks) (gs0, ung0)).2,
        find_matching_code_block x.line blocks = none)) := by
  induction results with
  | nil =>
      intro gs0 ung0 h1 h2 h3
      exact ⟨h1, h2, h3⟩
  | cons r t ih =>
      intro gs0 ung0 h1 h2 h3
      rw [List.foldl_cons]
      cases hfind : find_matching_code_block r.line blocks with
      | some b =>
          have hstep : group_step blocks (gs0, ung0) r =
              (insert_grouped gs0 (block_key b) b r, ung0) := by
            simp [group_step, hfind]
          rw [hstep]
          exact ih _ _ (insert_grouped_inv _ _ _ _ ⟨b, hfind, rfl⟩ h1)
            (insert_grouped_keys_nodup _ _ _ _ h2) h3
      | none =>
          have hstep : group_step blocks (gs0, ung0) r = (gs0, ung0 ++ [r]) := by
            simp [group_step, hfind]
          rw [hstep]
          refine ih _ _ h1 h2 ?_
          intro x hx
          rcases List.mem_append.mp hx with hx | hx
          · exact h3 x hx
          · simp only [List.mem_singleton] at hx
            subst hx
            exact hfind

/-- The ungrouped list only grows along the fold. -/
theorem group_fold_ung_mono (blocks : List CodeBlock) (results : List Cand) :
    ∀ (gs0 : List BlockGroup) (ung0 : List Cand) (x : Cand), x ∈ ung0 →
      x ∈ (results.foldl (group_step blocks) (gs0, ung0)).2 := by
  induction results with
  | nil =>
      intro gs0 ung0 x hx
      simpa using hx
  | cons r t ih =>
      intro gs0 ung0 x hx
      rw [List.foldl_cons]
      cases hfind : find_matching_code_block r.line blocks with
      | some b =>
          have hstep : group_step blocks (gs0, ung0) r =
              (insert_grouped gs0 (block_key b) b r, ung0) := by
            simp [group_step, hfind]
          rw [hstep]
          exact ih _ _ x hx
      | none =>
          have hstep : group_step blocks (gs0, ung0) r = (gs0, ung0 ++ [r]) := by
            simp [group_step, hfind]
          rw [hstep]
          exact ih _ _ x (by simp [hx])

/-- A result with no matching block ends up in the ungrouped list. -/
theorem group_fold_ung_mem (blocks : List CodeBlock) (results : List Cand) :
    ∀ (gs0 : List BlockGroup) (ung0 : List Cand) (r : Cand), r ∈ results →
      find_matching_code_block r.line blocks = none →
      r ∈ (results.foldl (group_step blocks) (gs0, ung0)).2 := by
  induction results with
  | nil =>
      intro gs0 ung0 r hr
      simp at hr
  | cons a t ih =>
      intro gs0 ung0 r hr hnone
      rw [List.foldl_cons]
      rcases List.mem_cons.mp hr with rfl | hr
      · have hstep : group_step blocks (gs0, ung0) r = (gs0, ung0 ++ [r]) := by
          simp [group_step, hnone]
        rw [hstep]
        exact group_fold_ung_mono blocks t _ _ r (by simp)
      · exact ih _ _ r hr hnone

/-- C5: after block unification, any two output candidates whose smallest
enclosing code block is the same block carry an identical ai_analysis
classification label, and every candidate outside all detected blocks passes
through unchanged. -/
theorem unified_block_consistent_classification (D : Detectors)
    (results : List Cand) (blocks : List CodeBlock) :
    (∀ u1 u2 (b : CodeBlock),
      u1 ∈ unify_block_analysis D results blocks →
      u2 ∈ unify_block_analysis D results blocks →
      find_matching_code_block u1.line blocks = some b →
      find_matching_code_block u2.line blocks = some b →
      ai_classification_d u1 "" = ai_classification_d u2 "") ∧
    (∀ r ∈ results, find_matching_code_block r.line blocks = none →
      r ∈ unify_block_analysis D results blocks) := by
  by_cases hb : blocks.isEmpty
  · constructor
    · intro u1 u2 b h1 h2 hf1 hf2
      rw [find_matching_code_block, if_pos (Or.inr hb)] at hf1
      cases hf1
    · intro r hr _
      rw [unify_block_analysis, if_pos hb]
      exact hr
  · obtain ⟨hI, hN, hU⟩ :=
      group_fold_invariants blocks results [] [] (by simp) (by simp) (by simp)
    constructor
    · intro u1 u2 b h1 h2 hf1 hf2
      simp only [unify_block_analysis, if_neg hb] at h1 h2
      rcases List.mem_append.mp h1 with h1 | h1
      swap
      · rw [hU u1 h1] at hf1
        cases hf1
      rcases List.mem_append.mp h2 with h2 | h2
      swap
      · rw [hU u2 h2] at hf2
        cases hf2
      rw [foldl_append_mem] at h1 h2
      rcases h1 with h1 | ⟨g1, hg1, hx1⟩
      · simp at h1
      rcases h2 with h2 | ⟨g2, hg2, hx2⟩
      · simp at h2
      rcases List.mem_map.mp hx1 with ⟨r1, hr1, rfl⟩
      rcases List.mem_map.mp hx2 with ⟨r2, hr2, rfl⟩
      rw [apply_unified_line] at hf1
      rw [apply_unified_line] at hf2
      obtain ⟨b1, hfb1, hk1⟩ := hI g1 hg1 r1 hr1
      obtain ⟨b2, hfb2, hk2⟩ := hI g2 hg2 r2 hr2
      rw [hf1] at hfb1
      rw [hf2] at hfb2
      have hbk1 : g1.1 = block_key b := by
        rw [← hk1]
        exact congrArg block_key (Option.some.inj hfb1.symm)
      have hbk2 : g2.1 = block_key b := by
        rw [← hk2]
        exact congrArg block_key (Option.some.inj hfb2.symm)
      have hgg : g1 = g2 :=
        List.inj_on_of_nodup_map hN hg1 hg2 (by rw [hbk1, hbk2])
      rw [apply_unified_classification, apply_unified_classification, hgg]
    · intro r hr hnone
      simp only [unify_block_analysis, if_neg hb]
      exact List.mem_append.mpr (Or.inr (group_fold_ung_mem blocks results [] [] r hr hnone))

/-- A simple-loop block spanning lines 1-5, for the C5 witness. -/
def c5_block : CodeBlock :=
  { blockType := "simple_loop", startLine := 1, endLine := 5, codeContent := "",
    nestingLevel := 1, parallelizationPotential := "moderate", analysisNotes := [] }

/-- A member result on line 2. -/
def c5_r1 : Cand :=
  { file := "t.cpp", line := 2, funcName := "f", candidateType := "reduction",
    reason := "", suggestedPatch := "", hotspotPriority := false,
    hotspotScore := none, aiAnalysis := none, codeBlock := none }

/-- A member result on line 3. -/
def c5_r2 : Cand := { c5_r1 with line := 3 }

/-- A result on line 100, outside the block. -/
def c5_r3 : Cand := { c5_r1 with line := 100 }

/-- The consensus analysis the block receives (fallback branch of the
decision table). -/
def c5_unified : AiAnalysis :=
  { classification := "requires_runtime_check", confidence := 0.6,
    reasoning := "Block requires runtime verification for safe parallelization",
    transformations := ["#pragma omp parallel for", "Verify data dependencies"],
    testsRecommended :=
      ["Verify data dependencies within block",
       "Test parallel vs sequential execution",
       "Performance benchmarking for entire block"],
    blockUnified := true }

/-- The two in-block members as they appear in the unified output. -/
def c5_w1 : Cand :=
  { c5_r1 with aiAnalysis := some c5_unified, codeBlock := some (make_block_info c5_block) }

/-- Second output member. -/
def c5_w2 : Cand :=
  { c5_r2 with aiAnalysis := some c5_unified, codeBlock := some (make_block_info c5_block) }

/-- C5 witness: on three results, two inside a single block and one outside,
the two in-block outputs carry the same classification and the outside
result passes through unchanged. -/
theorem unified_block_consistent_classification_witness :
    ai_classification_d c5_w1 "" = ai_classification_d c5_w2 "" ∧
    c5_r3 ∈ unify_block_analysis no_detect [c5_r1, c5_r2, c5_r3] [c5_block] :=
  ⟨(unified_block_consistent_classification no_detect [c5_r1, c5_r2, c5_r3] [c5_block]).1
      c5_w1 c5_w2 c5_block (by decide) (by decide) (by decide) (by decide),
    (unified_block_consistent_classification no_detect [c5_r1, c5_r2, c5_r3] [c5_block]).2
      c5_r3 (by decide) (by decide)⟩
